import Mathlib

/-!
Verification of the mlops-starter repository against its specification.

The repository is Python glue code around an external experiment-tracking
and model-registry service.  We shallowly embed the original logic:

* `src/schema.py` — the pydantic model `IrisInput` (four `float` fields,
  each constrained `ge=0`) and its `to_array` method;
* `src/predict.py` — version lookup, highest-version selection, input
  validation, prediction;
* `src/register.py` and `src/evaluate.py` — experiment/run lookup and the
  precondition errors they raise;
* `scripts/train_and_register_model.py` and `scripts/ci_train_model.py` —
  exit-status behaviour of the two pipeline scripts.

Python floats are modelled by rationals (ℚ); the external tracking service
is modelled as a record of lookup functions, following the interface
contract of §6 of the specification (the service itself is a third-party
collaborator, not code of this repository).
-/

deriving instance DecidableEq for Except

namespace MlopsStarter

/-! ## schema.py -/

/-- A caller-supplied Python value for one field of `IrisInput`, as seen by
pydantic's `float` coercion.  `num q` stands for any value pydantic coerces
to a float with numeric value `q` (an `int`, a `float`, or a numeric
string); `nonNumeric` stands for any value pydantic cannot coerce to a
float (e.g. the string "abc", `None`, a list).  A missing field is
`Option.none` at the use site. -/
inductive PyVal where
  | num (q : ℚ)
  | nonNumeric
  deriving DecidableEq, Repr

/-- The ways a single field of `IrisInput` can fail pydantic validation:
the field is missing, its value cannot be coerced to a float, or the
coerced value violates the `ge` bound (the violation records the offending
value and the bound). -/
inductive ConstraintViolation where
  | missing
  | notNumeric
  | belowMin (value : ℚ) (bound : ℚ)
  deriving DecidableEq, Repr

/-- One entry of a pydantic `ValidationError`: the name of the field that
failed (`loc`) and the constraint it violated. -/
structure FieldError where
  loc : String
  violation : ConstraintViolation
  deriving DecidableEq, Repr

/-- A pydantic `ValidationError` carries the errors of every failing
field. -/
abbrev ValidationError := List FieldError

/-- `src/schema.py`, `IrisInput`: the validated feature record.  Each field
is a `float = Field(..., ge=0)`. -/
structure IrisInput where
  sepal_length : ℚ
  sepal_width : ℚ
  petal_length : ℚ
  petal_width : ℚ
  deriving DecidableEq, Repr

/-- Validation of one field of `IrisInput`: the field must be present,
coercible to a float, and `ge=0`. -/
def validateField (name : String) (v : Option PyVal) : Except FieldError ℚ :=
  match v with
  | none => .error ⟨name, .missing⟩
  | some .nonNumeric => .error ⟨name, .notNumeric⟩
  | some (.num q) => if 0 ≤ q then .ok q else .error ⟨name, .belowMin q 0⟩

/-- The errors contributed by one field's validation result. -/
def errsOf (r : Except FieldError ℚ) : List FieldError :=
  match r with
  | .ok _ => []
  | .error e => [e]

/-- Constructing `IrisInput(...)`: pydantic validates every field and
either returns the record or raises a `ValidationError` collecting the
errors of all failing fields. -/
def IrisInput.validate (sl sw pl pw : Option PyVal) :
    Except ValidationError IrisInput :=
  match validateField "sepal_length" sl, validateField "sepal_width" sw,
        validateField "petal_length" pl, validateField "petal_width" pw with
  | .ok a, .ok b, .ok c, .ok d => .ok ⟨a, b, c, d⟩
  | ra, rb, rc, rd => .error (errsOf ra ++ errsOf rb ++ errsOf rc ++ errsOf rd)

/-- `src/schema.py`, `IrisInput.to_array`: the measurements as a
single-row batch in the canonical iris feature order. -/
def IrisInput.to_array (x : IrisInput) : List (List ℚ) :=
  [[x.sepal_length, x.sepal_width, x.petal_length, x.petal_width]]

/-- The field slot of the constructor call that a given field name refers
to. -/
def slotFor (sl sw pl pw : Option PyVal) (n : String) : Option PyVal :=
  if n = "sepal_length" then sl
  else if n = "sepal_width" then sw
  else if n = "petal_length" then pl
  else if n = "petal_width" then pw
  else none

/-! ## The external tracking / registry collaborator

Modelled from the spec (§6): the tracking service "exposes lookup of runs
by experiment and sort order, and lookup of registered model versions by
name, returning a resolvable model artifact location".  The service is a
third-party collaborator, so its state is abstracted as a record of lookup
functions; the queries issued by the repository's code (sort order,
result limit) are embedded where they are issued. -/

/-- A registered model version.  In the registry `version` is a decimal
string; `src/predict.py` compares versions by `int(v.version)`, so the
model carries the integer value directly.  `source` is the resolvable
artifact location of the version. -/
structure ModelVersion where
  version : ℤ
  source : String
  deriving DecidableEq, Repr

/-- An experiment, as returned by `get_experiment_by_name`. -/
structure Experiment where
  experiment_id : String
  deriving DecidableEq, Repr

/-- A tracked run: its id, start time, and logged metrics. -/
structure Run where
  run_id : String
  start_time : ℤ
  metrics : List (String × ℚ)
  deriving DecidableEq, Repr

/-- The tracking client (`mlflow.tracking.MlflowClient`), abstracted as
lookup functions over the service's state: experiments by name, runs by
experiment id, registered versions by model name. -/
structure MlflowClient where
  get_experiment_by_name : String → Option Experiment
  runs : String → List Run
  get_latest_versions : String → List ModelVersion

/-- The comparison key of `sorted(latest, key=lambda v: int(v.version))`
in `src/predict.py`. -/
def versionLe (a b : ModelVersion) : Prop := a.version ≤ b.version

instance : DecidableRel versionLe :=
  fun a b => inferInstanceAs (Decidable (a.version ≤ b.version))

instance : IsTotal ModelVersion versionLe :=
  ⟨fun a b => le_total a.version b.version⟩

instance : IsTrans ModelVersion versionLe :=
  ⟨fun _ _ _ => le_trans⟩

/-- The sort order `attributes.start_time DESC` used by `search_runs` in
`src/register.py` and `src/evaluate.py`. -/
def startTimeDesc (a b : Run) : Prop := b.start_time ≤ a.start_time

instance : DecidableRel startTimeDesc :=
  fun a b => inferInstanceAs (Decidable (b.start_time ≤ a.start_time))

instance : IsTotal Run startTimeDesc :=
  ⟨fun a b => le_total b.start_time a.start_time⟩

instance : IsTrans Run startTimeDesc :=
  ⟨fun _ _ _ hab hbc => le_trans hbc hab⟩

/-- `client.search_runs([experiment_id], order_by=["attributes.start_time
DESC"], max_results=1)`: the service returns the experiment's runs sorted
by start time, newest first, limited to one result.  Python's `sorted` is
a stable sort, modelled by `List.insertionSort`. -/
def MlflowClient.search_runs (client : MlflowClient) (experiment_id : String) :
    List Run :=
  ((client.runs experiment_id).insertionSort startTimeDesc).take 1

/-! ### Sorting lemmas -/

lemma insertionSort_ne_nil {α : Type} (r : α → α → Prop) [DecidableRel r]
    {l : List α} (h : l ≠ []) : l.insertionSort r ≠ [] := by
  intro hs
  apply h
  have hp := List.perm_insertionSort r l
  rw [hs] at hp
  exact hp.symm.eq_nil

/-! ## predict.py -/

/-- The parsed command-line arguments of `src/predict.py`. -/
structure PredictArgs where
  model_name : String
  sepal_length : ℚ
  sepal_width : ℚ
  petal_length : ℚ
  petal_width : ℚ
  deriving DecidableEq, Repr

/-- The ways `src/predict.py`'s `main` terminates with an uncaught
exception: the `RuntimeError` raised when the registry has no versions,
or the pydantic `ValidationError` raised by `IrisInput(...)`. -/
inductive PredictError where
  | noVersions (msg : String)
  | invalidInput (e : ValidationError)
  deriving DecidableEq, Repr

/-- `src/predict.py` line 20: `sorted(latest, key=lambda v:
int(v.version))[-1]` — sort ascending by integer version, take the last
element. -/
def pickHighestVersion (latest : List ModelVersion) (h : latest ≠ []) :
    ModelVersion :=
  (latest.insertionSort versionLe).getLast (insertionSort_ne_nil versionLe h)

/-- `src/predict.py` lines 23–32, after the model is loaded: validate the
four measurements through `IrisInput`, call `model.predict` on the
single-row batch, and print the first predicted label. -/
def predictWithModel (model : List (List ℚ) → List ℤ) (args : PredictArgs) :
    Except PredictError ℤ :=
  match IrisInput.validate (some (.num args.sepal_length))
      (some (.num args.sepal_width)) (some (.num args.petal_length))
      (some (.num args.petal_width)) with
  | .error e => .error (.invalidInput e)
  | .ok request => .ok ((model request.to_array).headD 0)

/-- `src/predict.py`, `main`: look up the registered versions of
`args.model_name`; fail if there are none; otherwise load the highest
version's artifact and predict.  `load_model` abstracts
`mlflow.pyfunc.load_model`, mapping an artifact location to a model. -/
def predictMain (client : MlflowClient)
    (load_model : String → (List (List ℚ) → List ℤ)) (args : PredictArgs) :
    Except PredictError ℤ :=
  let latest := client.get_latest_versions args.model_name
  if h : latest = [] then
    .error (.noVersions "No registered versions found. Run register.py first.")
  else
    predictWithModel (load_model (pickHighestVersion latest h).source) args

/-! ## register.py -/

/-- The parsed command-line arguments of `src/register.py`. -/
structure RegisterArgs where
  metric : String
  min_improve : ℚ
  model_name : String
  deriving DecidableEq, Repr

/-- The `RuntimeError`s `src/register.py`'s `main` can raise. -/
inductive RegisterError where
  | experimentNotFound (msg : String)
  | noRuns (msg : String)
  | metricNotFound (msg : String)
  deriving DecidableEq, Repr

/-- The outcome of a successful registration: the model uri passed to
`mlflow.register_model` and the registered name. -/
structure RegisteredModel where
  model_uri : String
  name : String
  deriving DecidableEq, Repr

/-- `src/register.py`, `main`: find the experiment, take the latest run,
require the metric to be present on it, then register `runs:/<run_id>/model`
under `args.model_name`.  The metric's value is printed but otherwise
unused; `args.min_improve` is never read. -/
def registerMain (client : MlflowClient) (args : RegisterArgs) :
    Except RegisterError RegisteredModel :=
  match client.get_experiment_by_name "iris-exp" with
  | none =>
    .error (.experimentNotFound "Experiment iris-exp not found. Run train.py first.")
  | some exp =>
    match client.search_runs exp.experiment_id with
    | [] => .error (.noRuns "No runs found.")
    | run :: _ =>
      match run.metrics.lookup args.metric with
      | none =>
        .error (.metricNotFound ("Metric " ++ args.metric ++ " not found on latest run."))
      | some _ => .ok ⟨"runs:/" ++ run.run_id ++ "/model", args.model_name⟩

/-! ## evaluate.py -/

/-- The `RuntimeError`s `src/evaluate.py`'s `main` can raise. -/
inductive EvaluateError where
  | experimentNotFound (msg : String)
  | noRuns (msg : String)
  deriving DecidableEq, Repr

/-- `src/evaluate.py`, `main`, lines 14–31: find the experiment, take the
latest run, and resolve the model uri to evaluate.  The remainder of the
function (loading the artifact, computing the classification report) is
delegated to external libraries and returns the resolved uri here. -/
def evaluateMain (client : MlflowClient) : Except EvaluateError String :=
  match client.get_experiment_by_name "iris-exp" with
  | none =>
    .error (.experimentNotFound "Experiment iris-exp not found. Run train.py first.")
  | some exp =>
    match client.search_runs exp.experiment_id with
    | [] => .error (.noRuns "No runs found. Run train.py first.")
    | run :: _ => .ok ("runs:/" ++ run.run_id ++ "/model")

/-! ## The two pipeline scripts (exit-status behaviour) -/

/-- The outcome of a Python call that may raise an uncaught exception. -/
inductive PyOutcome (α : Type) where
  | ok (a : α)
  | raised (msg : String)
  deriving DecidableEq, Repr

/-- `scripts/train_and_register_model.py`, `load_model_from_git` (lines
88–114): loading and testing the registered model is wrapped in
`try/except Exception`; on failure the error is printed and `None` is
returned.  `load` abstracts the body of the `try` block; the result pairs
the returned value with the printed lines. -/
def load_model_from_git (load : Except String Unit) :
    Option Unit × List String :=
  match load with
  | .ok m => (some m, ["Model loaded from Git/MLflow"])
  | .error e => (none, ["Error loading model: " ++ e])

/-- `scripts/train_and_register_model.py`, `__main__` (lines 117–135):
run training (an uncaught exception terminates the process with status 1),
then call `load_model_from_git`; print a success line if a model came
back and a failure line otherwise, and fall off the end of the script —
the interpreter then exits with status 0 in both branches.  Result:
(exit status, printed failure/success lines). -/
def train_and_register_script (train : PyOutcome String)
    (load : Except String Unit) : ℕ × List String :=
  match train with
  | .raised msg => (1, [msg])
  | .ok _ =>
    match load_model_from_git load with
    | (some _, out) =>
      (0, out ++ ["Success! Model can be picked up from Git repository via MLflow!"])
    | (none, out) => (0, out ++ ["Failed to load model from Git/MLflow"])

/-- `scripts/ci_train_model.py`, `register_best_model` (lines 109–146):
every exception inside the function is caught and turns into `False`; the
function also returns `False` when the registry lists no versions.
`versionsResult` abstracts `client.get_latest_versions`, `loadTest` the
subsequent artifact load and test prediction. -/
def register_best_model (versionsResult : Except String (List ModelVersion))
    (loadTest : Except String Unit) : Bool :=
  match versionsResult with
  | .error _ => false
  | .ok [] => false
  | .ok (_ :: _) =>
    match loadTest with
    | .error _ => false
    | .ok _ => true

/-- `scripts/ci_train_model.py`, `__main__` (lines 170–209): an uncaught
exception in training terminates the process with status 1; otherwise the
script calls `sys.exit(1)` when `register_best_model` returned `False`
and ends with status 0 when it returned `True`. -/
def ci_train_script (train : PyOutcome (String × ℚ)) (registerSuccess : Bool) :
    ℕ :=
  match train with
  | .raised _ => 1
  | .ok _ => if registerSuccess then 0 else 1

/-! ## The command-line surface of predict.py -/

/-- A command line, as flag/value pairs. -/
abbrev CmdLine := List (String × String)

/-- The numeric value of a nonempty all-digit character sequence; `none`
otherwise. -/
def digitsVal (cs : List Char) : Option ℕ :=
  if cs = [] then none
  else
    cs.foldl
      (fun acc c =>
        acc.bind fun n => if c.isDigit then some (10 * n + (c.toNat - 48)) else none)
      (some 0)

/-- Split a character sequence at every dot. -/
def splitOnDot : List Char → List (List Char)
  | [] => [[]]
  | c :: rest =>
    let r := splitOnDot rest
    if c = '.' then [] :: r
    else
      match r with
      | [] => [[c]]
      | h :: t => (c :: h) :: t

/-- Python's `float(s)` as invoked by `argparse` for `type=float` flags,
modelled for finite decimal literals: an optional leading minus sign,
digits, and an optional fractional part.  Forms outside this grammar
(exponents, `inf`, `nan`, leading `+`, a bare leading or trailing dot)
are not needed by any claim and are mapped to `none`. -/
def pyFloat (s : String) : Option ℚ :=
  let (neg, body) :=
    match s.data with
    | '-' :: rest => (true, rest)
    | cs => (false, cs)
  let signed : ℚ → ℚ := fun q => if neg then -q else q
  match splitOnDot body with
  | [ip] => (digitsVal ip).map fun n => signed n
  | [ip, fp] => do
    let n ← digitsVal ip
    let f ← digitsVal fp
    pure (signed ((n : ℚ) + (f : ℚ) / ((10 : ℚ) ^ fp.length)))
  | _ => none

/-- `argparse` handling of one `type=float, required=True` flag of
`src/predict.py` (lines 38–41): missing flag or unconvertible value makes
the whole parse fail (argparse exits with an error). -/
def required_float_flag (cl : CmdLine) (flag : String) : Except String ℚ :=
  match cl.lookup flag with
  | none => .error ("the following arguments are required: " ++ flag)
  | some v =>
    match pyFloat v with
    | none => .error ("argument " ++ flag ++ ": invalid float value: " ++ v)
    | some q => .ok q

/-- `src/predict.py`, `__main__` (lines 36–42): `--model-name` takes the
default `"iris_classifier"` when absent; the four measurement flags are
`required=True` with `type=float`.  The parse succeeds exactly when all
four measurement flags are present and convertible. -/
def parse_predict_args (cl : CmdLine) : Except String PredictArgs :=
  match required_float_flag cl "--sepal_length",
        required_float_flag cl "--sepal_width",
        required_float_flag cl "--petal_length",
        required_float_flag cl "--petal_width" with
  | .ok sl, .ok sw, .ok pl, .ok pw =>
    .ok ⟨(cl.lookup "--model-name").getD "iris_classifier", sl, sw, pl, pw⟩
  | .error e, _, _, _ => .error e
  | _, .error e, _, _ => .error e
  | _, _, .error e, _ => .error e
  | _, _, _, .error e => .error e

/-! ## Helper lemmas -/

lemma validateField_ok_iff {name : String} {v : Option PyVal} {q : ℚ} :
    validateField name v = .ok q ↔ v = some (.num q) ∧ 0 ≤ q := by
  cases v with
  | none => simp [validateField]
  | some pv =>
    cases pv with
    | num x =>
      by_cases hx : 0 ≤ x
      · simp only [validateField, if_pos hx]
        constructor
        · intro h
          cases h
          exact ⟨rfl, hx⟩
        · rintro ⟨h, _⟩
          cases h
          rfl
      · simp only [validateField, if_neg hx]
        constructor
        · intro h
          cases h
        · rintro ⟨h, hq⟩
          cases h
          exact absurd hq hx
    | nonNumeric => simp [validateField]

lemma validateField_error_loc {name : String} {v : Option PyVal}
    {fe : FieldError} (h : validateField name v = .error fe) :
    fe.loc = name := by
  cases v with
  | none => cases h; rfl
  | some pv =>
    cases pv with
    | num x =>
      by_cases hx : 0 ≤ x
      · simp [validateField, if_pos hx] at h
      · rw [validateField, if_neg hx] at h
        cases h
        rfl
    | nonNumeric => cases h; rfl

lemma mem_errsOf {r : Except FieldError ℚ} {fe : FieldError}
    (h : fe ∈ errsOf r) : r = .error fe := by
  cases r with
  | ok q => simp [errsOf] at h
  | error e =>
    simp [errsOf] at h
    rw [h]

lemma validate_ok_fields {sl sw pl pw : Option PyVal} {x : IrisInput}
    (h : IrisInput.validate sl sw pl pw = .ok x) :
    validateField "sepal_length" sl = .ok x.sepal_length ∧
    validateField "sepal_width" sw = .ok x.sepal_width ∧
    validateField "petal_length" pl = .ok x.petal_length ∧
    validateField "petal_width" pw = .ok x.petal_width := by
  unfold IrisInput.validate at h
  rcases ha : validateField "sepal_length" sl with ea | a <;>
    rcases hb : validateField "sepal_width" sw with eb | b <;>
    rcases hc : validateField "petal_length" pl with ec | c <;>
    rcases hd : validateField "petal_width" pw with ed | d <;>
    rw [ha, hb, hc, hd] at h <;> simp at h
  subst h
  exact ⟨rfl, rfl, rfl, rfl⟩

lemma validate_error_eq {sl sw pl pw : Option PyVal} {e : ValidationError}
    (h : IrisInput.validate sl sw pl pw = .error e) :
    e = errsOf (validateField "sepal_length" sl) ++
        errsOf (validateField "sepal_width" sw) ++
        errsOf (validateField "petal_length" pl) ++
        errsOf (validateField "petal_width" pw) ∧ e ≠ [] := by
  unfold IrisInput.validate at h
  rcases ha : validateField "sepal_length" sl with ea | a <;>
    rcases hb : validateField "sepal_width" sw with eb | b <;>
    rcases hc : validateField "petal_length" pl with ec | c <;>
    rcases hd : validateField "petal_width" pw with ed | d <;>
    rw [ha, hb, hc, hd] at h <;>
    simp [errsOf] at h ⊢ <;>
    simp [← h]

lemma slotFor_sepal_length (sl sw pl pw : Option PyVal) :
    slotFor sl sw pl pw "sepal_length" = sl := rfl

lemma slotFor_sepal_width (sl sw pl pw : Option PyVal) :
    slotFor sl sw pl pw "sepal_width" = sw := rfl

lemma slotFor_petal_length (sl sw pl pw : Option PyVal) :
    slotFor sl sw pl pw "petal_length" = pl := rfl

lemma slotFor_petal_width (sl sw pl pw : Option PyVal) :
    slotFor sl sw pl pw "petal_width" = pw := rfl

lemma required_float_flag_ok_iff {cl : CmdLine} {flag : String} {q : ℚ} :
    required_float_flag cl flag = .ok q ↔
      ∃ v, cl.lookup flag = some v ∧ pyFloat v = some q := by
  unfold required_float_flag
  cases hv : cl.lookup flag with
  | none => simp
  | some v =>
    cases hq : pyFloat v with
    | none => simp [hq]
    | some q0 => simp [hq]

lemma parse_ok_fields {cl : CmdLine} {args : PredictArgs}
    (h : parse_predict_args cl = .ok args) :
    required_float_flag cl "--sepal_length" = .ok args.sepal_length ∧
    required_float_flag cl "--sepal_width" = .ok args.sepal_width ∧
    required_float_flag cl "--petal_length" = .ok args.petal_length ∧
    required_float_flag cl "--petal_width" = .ok args.petal_width ∧
    args.model_name = (cl.lookup "--model-name").getD "iris_classifier" := by
  unfold parse_predict_args at h
  rcases ha : required_float_flag cl "--sepal_length" with ea | a <;>
    rcases hb : required_float_flag cl "--sepal_width" with eb | b <;>
    rcases hc : required_float_flag cl "--petal_length" with ec | c <;>
    rcases hd : required_float_flag cl "--petal_width" with ed | d <;>
    rw [ha, hb, hc, hd] at h <;> simp at h
  subst h
  exact ⟨rfl, rfl, rfl, rfl, rfl⟩

lemma sorted_getLast_max {α : Type} {r : α → α → Prop} (hrefl : ∀ a, r a a)
    {l : List α} (hs : l.Sorted r) (hne : l ≠ []) :
    ∀ x ∈ l, r x (l.getLast hne) := by
  induction l with
  | nil => exact absurd rfl hne
  | cons a t ih =>
    rcases List.sorted_cons.mp hs with ⟨ha, ht⟩
    intro x hx
    by_cases ht0 : t = []
    · subst ht0
      rcases List.mem_singleton.mp hx with rfl
      exact hrefl x
    · rw [List.getLast_cons ht0]
      rcases List.mem_cons.mp hx with rfl | hx
      · exact ha _ (List.getLast_mem ht0)
      · exact ih ht ht0 x hx

lemma sorted_head_max {α : Type} {r : α → α → Prop} (hrefl : ∀ a, r a a)
    {a : α} {t : List α} (hs : (a :: t).Sorted r) :
    ∀ x ∈ a :: t, r a x := by
  rcases List.sorted_cons.mp hs with ⟨ha, _⟩
  intro x hx
  rcases List.mem_cons.mp hx with rfl | hx
  · exact hrefl x
  · exact ha x hx

/-! ## Claims -/

/-- C1: for every input of four non-negative numeric values, constructing
the feature record succeeds, and converting it to an array returns exactly
the single-row batch `[[sepal_length, sepal_width, petal_length,
petal_width]]` — the canonical order, each value (including exactly 0)
passed through unchanged. -/
theorem c1_nonneg_input_accepted_and_ordered (a b c d : ℚ)
    (ha : 0 ≤ a) (hb : 0 ≤ b) (hc : 0 ≤ c) (hd : 0 ≤ d) :
    IrisInput.validate (some (.num a)) (some (.num b)) (some (.num c))
        (some (.num d)) = .ok ⟨a, b, c, d⟩ ∧
    (IrisInput.mk a b c d).to_array = [[a, b, c, d]] := by
  refine ⟨?_, rfl⟩
  unfold IrisInput.validate
  simp [validateField, if_pos ha, if_pos hb, if_pos hc, if_pos hd]

/-- Witness for C1, at the boundary input `(0, 0, 0, 0)`: a value of
exactly 0 for every field is accepted and passed through. -/
theorem c1_nonneg_input_accepted_and_ordered_witness :
    IrisInput.validate (some (.num 0)) (some (.num 0)) (some (.num 0))
        (some (.num 0)) = .ok ⟨0, 0, 0, 0⟩ ∧
    (IrisInput.mk 0 0 0 0).to_array = [[0, 0, 0, 0]] :=
  c1_nonneg_input_accepted_and_ordered 0 0 0 0 le_rfl le_rfl le_rfl le_rfl

/-- C2: for every input where any one of the four measurement fields is
negative, constructing the feature record fails with a `ValidationError`,
regardless of the values of the other three fields. -/
theorem c2_negative_field_rejected (sl sw pl pw : Option PyVal) (q : ℚ)
    (hq : q < 0)
    (hneg : sl = some (.num q) ∨ sw = some (.num q) ∨ pl = some (.num q) ∨
      pw = some (.num q)) :
    ∃ e, IrisInput.validate sl sw pl pw = .error e := by
  cases hv : IrisInput.validate sl sw pl pw with
  | error e => exact ⟨e, rfl⟩
  | ok x =>
    exfalso
    have key : ∀ (name : String) (v : Option PyVal) (r : ℚ),
        v = some (.num q) → validateField name v = .ok r → False := by
      intro name v r hv0 hok
      rcases validateField_ok_iff.mp hok with ⟨heq, hge⟩
      rw [hv0] at heq
      simp at heq
      subst heq
      exact absurd hge (not_le.mpr hq)
    obtain ⟨h1, h2, h3, h4⟩ := validate_ok_fields hv
    rcases hneg with h | h | h | h
    · exact key _ _ _ h h1
    · exact key _ _ _ h h2
    · exact key _ _ _ h h3
    · exact key _ _ _ h h4

/-- Witness for C2, at the spec's scenario 2 input `(-1, 3.5, 1.4, 0.2)`. -/
theorem c2_negative_field_rejected_witness :
    ∃ e, IrisInput.validate (some (.num (-1))) (some (.num (35/10)))
      (some (.num (14/10))) (some (.num (2/10))) = .error e :=
  c2_negative_field_rejected _ _ _ _ (-1) (by norm_num) (Or.inl rfl)

/-- C3: for every input where any measurement field is missing or
non-numeric, constructing the feature record fails with a
`ValidationError`; and an invalid value is never silently coerced into an
accepted one — validation succeeds only when every field is a numeric
value, and the accepted record holds exactly those numeric values. -/
theorem c3_missing_or_nonnumeric_rejected :
    (∀ sl sw pl pw : Option PyVal,
      ((sl = none ∨ sl = some .nonNumeric) ∨
       (sw = none ∨ sw = some .nonNumeric) ∨
       (pl = none ∨ pl = some .nonNumeric) ∨
       (pw = none ∨ pw = some .nonNumeric)) →
      ∃ e, IrisInput.validate sl sw pl pw = .error e) ∧
    (∀ (sl sw pl pw : Option PyVal) (x : IrisInput),
      IrisInput.validate sl sw pl pw = .ok x →
      sl = some (.num x.sepal_length) ∧ sw = some (.num x.sepal_width) ∧
      pl = some (.num x.petal_length) ∧ pw = some (.num x.petal_width)) := by
  have key : ∀ (name : String) (v : Option PyVal) (r : ℚ),
      (v = none ∨ v = some .nonNumeric) → validateField name v = .ok r →
      False := by
    intro name v r hv hok
    rcases validateField_ok_iff.mp hok with ⟨heq, _⟩
    rcases hv with rfl | rfl <;> simp at heq
  constructor
  · intro sl sw pl pw hbad
    cases hv : IrisInput.validate sl sw pl pw with
    | error e => exact ⟨e, rfl⟩
    | ok x =>
      exfalso
      obtain ⟨h1, h2, h3, h4⟩ := validate_ok_fields hv
      rcases hbad with h | h | h | h
      · exact key _ _ _ h h1
      · exact key _ _ _ h h2
      · exact key _ _ _ h h3
      · exact key _ _ _ h h4
  · intro sl sw pl pw x hv
    obtain ⟨h1, h2, h3, h4⟩ := validate_ok_fields hv
    exact ⟨(validateField_ok_iff.mp h1).1, (validateField_ok_iff.mp h2).1,
      (validateField_ok_iff.mp h3).1, (validateField_ok_iff.mp h4).1⟩

/-- Witness for C3: a missing `sepal_length` is rejected. -/
theorem c3_missing_or_nonnumeric_rejected_witness :
    ∃ e, IrisInput.validate none (some (.num 1)) (some (.num 1))
      (some (.num 1)) = .error e :=
  c3_missing_or_nonnumeric_rejected.1 none _ _ _ (Or.inl (Or.inl rfl))

/-- C4: whenever feature-record validation fails, the resulting
`ValidationError` is non-empty and each of its entries names a field whose
own validation failed with exactly the recorded violation (which carries
the offending value and the violated constraint); in particular,
rejecting `(-1, 3.5, 1.4, 0.2)` yields an error naming `sepal_length`,
its value -1 and the violated bound 0. -/
theorem c4_error_identifies_failing_fields :
    (∀ (sl sw pl pw : Option PyVal) (e : ValidationError),
      IrisInput.validate sl sw pl pw = .error e →
      e ≠ [] ∧ ∀ fe ∈ e,
        validateField fe.loc (slotFor sl sw pl pw fe.loc) = .error fe) ∧
    IrisInput.validate (some (.num (-1))) (some (.num (35/10)))
        (some (.num (14/10))) (some (.num (2/10))) =
      .error [⟨"sepal_length", .belowMin (-1) 0⟩] := by
  constructor
  · intro sl sw pl pw e h
    obtain ⟨he, hne⟩ := validate_error_eq h
    refine ⟨hne, ?_⟩
    intro fe hfe
    rw [he] at hfe
    simp only [List.mem_append] at hfe
    rcases hfe with ((hfe | hfe) | hfe) | hfe
    · have hv := mem_errsOf hfe
      have hl := validateField_error_loc hv
      rw [hl, slotFor_sepal_length]
      exact hv
    · have hv := mem_errsOf hfe
      have hl := validateField_error_loc hv
      rw [hl, slotFor_sepal_width]
      exact hv
    · have hv := mem_errsOf hfe
      have hl := validateField_error_loc hv
      rw [hl, slotFor_petal_length]
      exact hv
    · have hv := mem_errsOf hfe
      have hl := validateField_error_loc hv
      rw [hl, slotFor_petal_width]
      exact hv
  · unfold IrisInput.validate
    norm_num [validateField, errsOf]

/-- Witness for C4: the general part applied at the scenario-2 input,
using the concrete error list the second part computes. -/
theorem c4_error_identifies_failing_fields_witness :
    [(⟨"sepal_length", .belowMin (-1) 0⟩ : FieldError)] ≠ [] ∧
    ∀ fe ∈ [(⟨"sepal_length", .belowMin (-1) 0⟩ : FieldError)],
      validateField fe.loc (slotFor (some (.num (-1))) (some (.num (35/10)))
        (some (.num (14/10))) (some (.num (2/10))) fe.loc) = .error fe :=
  c4_error_identifies_failing_fields.1 _ _ _ _ _
    c4_error_identifies_failing_fields.2

/-- C5: for every model name for which the registry returns zero
registered versions, the prediction entry point fails with the fatal
`RuntimeError` "No registered versions found. Run register.py first."
before any model is loaded or any prediction is made — the result does
not depend on the model loader at all. -/
theorem c5_no_registered_versions_fails_before_load
    (client : MlflowClient) (f g : String → List (List ℚ) → List ℤ)
    (args : PredictArgs)
    (h : client.get_latest_versions args.model_name = []) :
    predictMain client f args =
      .error (.noVersions "No registered versions found. Run register.py first.") ∧
    predictMain client f args = predictMain client g args := by
  constructor <;> simp [predictMain, h]

/-- Witness for C5: a registry with no versions at all. -/
theorem c5_no_registered_versions_fails_before_load_witness :
    predictMain ⟨fun _ => none, fun _ => [], fun _ => []⟩ (fun _ _ => [0])
        ⟨"iris_classifier", 1, 1, 1, 1⟩ =
      .error (.noVersions "No registered versions found. Run register.py first.") :=
  (c5_no_registered_versions_fails_before_load _ _ (fun _ _ => [1]) _ rfl).1

/-- C6: whenever the experiment `iris-exp` does not exist in the tracking
service, both the registration and the evaluation entry points fail with
the fatal `RuntimeError` "Experiment iris-exp not found. Run train.py
first.", instructing the caller to run training first; neither retries. -/
theorem c6_missing_experiment_instructs_training
    (client : MlflowClient) (args : RegisterArgs)
    (h : client.get_experiment_by_name "iris-exp" = none) :
    registerMain client args =
      .error (.experimentNotFound "Experiment iris-exp not found. Run train.py first.") ∧
    evaluateMain client =
      .error (.experimentNotFound "Experiment iris-exp not found. Run train.py first.") := by
  constructor
  · unfold registerMain
    rw [h]
  · unfold evaluateMain
    rw [h]

/-- Witness for C6: a tracking service with no experiments. -/
theorem c6_missing_experiment_instructs_training_witness :
    registerMain ⟨fun _ => none, fun _ => [], fun _ => []⟩
        ⟨"f1", 0, "iris_classifier"⟩ =
      .error (.experimentNotFound "Experiment iris-exp not found. Run train.py first.") :=
  (c6_missing_experiment_instructs_training _ ⟨"f1", 0, "iris_classifier"⟩ rfl).1

/-- C9: whenever the registry returns a non-empty list of registered
versions for the model name, the prediction entry point selects, and
hands to the model loader, the version whose integer version number is
the greatest among the returned versions (sorting by integer version and
taking the last element). -/
theorem c9_predict_selects_highest_version
    (client : MlflowClient) (load_model : String → List (List ℚ) → List ℤ)
    (args : PredictArgs)
    (h : client.get_latest_versions args.model_name ≠ []) :
    pickHighestVersion (client.get_latest_versions args.model_name) h ∈
      client.get_latest_versions args.model_name ∧
    (∀ v ∈ client.get_latest_versions args.model_name,
      v.version ≤
        (pickHighestVersion (client.get_latest_versions args.model_name) h).version) ∧
    predictMain client load_model args =
      predictWithModel
        (load_model
          (pickHighestVersion (client.get_latest_versions args.model_name) h).source)
        args := by
  refine ⟨?_, ?_, ?_⟩
  · exact (List.perm_insertionSort versionLe _).subset
      (List.getLast_mem (insertionSort_ne_nil versionLe h))
  · intro v hv
    have hv2 : v ∈ (client.get_latest_versions args.model_name).insertionSort versionLe :=
      (List.perm_insertionSort versionLe _).symm.subset hv
    have hrefl : ∀ a : ModelVersion, versionLe a a := fun a => le_refl a.version
    exact sorted_getLast_max hrefl
      (List.sorted_insertionSort versionLe _)
      (insertionSort_ne_nil versionLe h) v hv2
  · simp only [predictMain]
    rw [dif_neg h]

/-- Witness for C9: a registry with versions 1 and 2; the artifact of
version 2 (source "bb") is the one handed to the loader. -/
theorem c9_predict_selects_highest_version_witness :
    predictMain ⟨fun _ => none, fun _ => [], fun _ => [⟨1, "a"⟩, ⟨2, "bb"⟩]⟩
        (fun src _ => [(src.length : ℤ)]) ⟨"m", 1, 1, 1, 1⟩ = .ok 2 := by
  have h := c9_predict_selects_highest_version
    ⟨fun _ => none, fun _ => [], fun _ => [⟨1, "a"⟩, ⟨2, "bb"⟩]⟩
    (fun src _ => [(src.length : ℤ)]) ⟨"m", 1, 1, 1, 1⟩ (by simp)
  rw [h.2.2]
  rfl

/-- C10: the registration entry point registers the model of the most
recently started run of the experiment whenever that run has the named
metric, irrespective of the metric's value; the `--min-improve` threshold
is parsed into the arguments but never affects whether or what is
registered. -/
theorem c10_register_latest_run_ignores_threshold
    (client : MlflowClient) (args : RegisterArgs) (exp : Experiment)
    (hexp : client.get_experiment_by_name "iris-exp" = some exp)
    (run : Run) (rest : List Run)
    (hruns : client.search_runs exp.experiment_id = run :: rest)
    (v : ℚ) (hm : run.metrics.lookup args.metric = some v) :
    registerMain client args =
      .ok ⟨"runs:/" ++ run.run_id ++ "/model", args.model_name⟩ ∧
    (∀ x ∈ client.runs exp.experiment_id, x.start_time ≤ run.start_time) ∧
    (∀ m : ℚ, registerMain client ⟨args.metric, m, args.model_name⟩ =
      registerMain client args) := by
  refine ⟨?_, ?_, fun m => rfl⟩
  · simp [registerMain, hexp, hruns, hm]
  · intro x hx
    unfold MlflowClient.search_runs at hruns
    rcases hs : (client.runs exp.experiment_id).insertionSort startTimeDesc with
      _ | ⟨a, t⟩
    · rw [hs] at hruns
      simp at hruns
    · rw [hs] at hruns
      simp [List.take] at hruns
      obtain ⟨ha, -⟩ := hruns
      have hsorted :=
        List.sorted_insertionSort startTimeDesc (client.runs exp.experiment_id)
      rw [hs] at hsorted
      have hx2 : x ∈ a :: t := by
        rw [← hs]
        exact (List.perm_insertionSort startTimeDesc _).symm.subset hx
      have hrefl : ∀ r : Run, startTimeDesc r r := fun r => le_refl r.start_time
      have hmax := sorted_head_max hrefl hsorted x hx2
      rw [← ha]
      exact hmax

/-- Witness for C10: two runs, the later-started one (`r1`, start time 5)
carrying `f1 = 9/10`; its model is registered. -/
theorem c10_register_latest_run_ignores_threshold_witness :
    registerMain
        ⟨fun n => if n = "iris-exp" then some ⟨"0"⟩ else none,
         fun _ => [⟨"r2", 3, [("f1", 1/2)]⟩, ⟨"r1", 5, [("f1", 9/10)]⟩],
         fun _ => []⟩
        ⟨"f1", 0, "iris_classifier"⟩ =
      .ok ⟨"runs:/" ++ "r1" ++ "/model", "iris_classifier"⟩ :=
  (c10_register_latest_run_ignores_threshold
    ⟨fun n => if n = "iris-exp" then some ⟨"0"⟩ else none,
     fun _ => [⟨"r2", 3, [("f1", 1/2)]⟩, ⟨"r1", 5, [("f1", 9/10)]⟩],
     fun _ => []⟩
    ⟨"f1", 0, "iris_classifier"⟩
    ⟨"0"⟩ rfl ⟨"r1", 5, [("f1", 9/10)]⟩ [] rfl (9/10) rfl).1

/-- C7 counterexample: in `scripts/train_and_register_model.py`, when
training succeeds but loading the registered model fails, the failure is
printed yet the process exits with status 0, not non-zero. -/
theorem c7_counterexample :
    (train_and_register_script (.ok "run-1") (.error "connection refused")).1 = 0 ∧
    "Error loading model: connection refused" ∈
      (train_and_register_script (.ok "run-1") (.error "connection refused")).2 := by
  constructor
  · rfl
  · exact List.Mem.head _

/-- C7 (amended): every in-scope failure is reported; `ci_train_model.py`
terminates with non-zero status on a training exception or a failed
registration, and `train_and_register_model.py` terminates non-zero on a
training exception — but when loading the registered model fails in
`train_and_register_model.py`, the failure is only printed and the
process exits with status 0. -/
theorem c7_failures_reported_exit_status :
    (∀ (msg : String) (load : Except String Unit),
      (train_and_register_script (.raised msg) load).1 = 1 ∧
      msg ∈ (train_and_register_script (.raised msg) load).2) ∧
    (∀ (run_id e : String),
      (train_and_register_script (.ok run_id) (.error e)).1 = 0 ∧
      ("Error loading model: " ++ e) ∈
        (train_and_register_script (.ok run_id) (.error e)).2 ∧
      "Failed to load model from Git/MLflow" ∈
        (train_and_register_script (.ok run_id) (.error e)).2) ∧
    (∀ (msg : String) (b : Bool), ci_train_script (.raised msg) b = 1) ∧
    (∀ t : String × ℚ,
      ci_train_script (.ok t) false = 1 ∧ ci_train_script (.ok t) true = 0) ∧
    (∀ (e : String) (lt : Except String Unit),
      register_best_model (.error e) lt = false) ∧
    (∀ (vs : Except String (List ModelVersion)) (e : String),
      register_best_model vs (.error e) = false) := by
  refine ⟨?_, ?_, ?_, ?_, ?_, ?_⟩
  · intro msg load
    exact ⟨rfl, List.Mem.head _⟩
  · intro run_id e
    exact ⟨rfl, List.Mem.head _, List.Mem.tail _ (List.Mem.head _)⟩
  · intro msg b
    rfl
  · intro t
    exact ⟨rfl, rfl⟩
  · intro e lt
    rfl
  · intro vs e
    rcases vs with e0 | l
    · rfl
    · rcases l with _ | ⟨v, vs0⟩ <;> rfl

/-- C8 counterexample: `--model-name` is not a required flag of
`src/predict.py` — a command line giving only the four measurements
parses successfully, falling back to the default name
`"iris_classifier"`. -/
theorem c8_counterexample :
    parse_predict_args [("--sepal_length", "5"), ("--sepal_width", "3"),
        ("--petal_length", "1"), ("--petal_width", "0")] =
      .ok ⟨"iris_classifier", 5, 3, 1, 0⟩ := by
  decide

/-- C8 (amended): on the command-line surface of the prediction script,
`--model-name` is optional with default `"iris_classifier"`; the four
measurement flags are each required and numeric (parsing fails when one
is absent or not a float); and the measurements are validated through
`IrisInput` before any prediction is made — a validation failure means
`main` never returns a prediction. -/
theorem c8_model_name_optional_measurements_required :
    (∀ (cl : CmdLine) (args : PredictArgs), parse_predict_args cl = .ok args →
      args.model_name = (cl.lookup "--model-name").getD "iris_classifier") ∧
    (∀ (cl : CmdLine) (flag : String),
      flag ∈ ["--sepal_length", "--sepal_width", "--petal_length", "--petal_width"] →
      cl.lookup flag = none → ∃ e, parse_predict_args cl = .error e) ∧
    (∀ (cl : CmdLine) (flag : String) (v : String),
      flag ∈ ["--sepal_length", "--sepal_width", "--petal_length", "--petal_width"] →
      cl.lookup flag = some v → pyFloat v = none →
      ∃ e, parse_predict_args cl = .error e) ∧
    (∀ (client : MlflowClient) (load_model : String → List (List ℚ) → List ℤ)
      (args : PredictArgs) (e : ValidationError),
      IrisInput.validate (some (.num args.sepal_length))
          (some (.num args.sepal_width)) (some (.num args.petal_length))
          (some (.num args.petal_width)) = .error e →
      ∀ y : ℤ, predictMain client load_model args ≠ .ok y) := by
  refine ⟨?_, ?_, ?_, ?_⟩
  · intro cl args h
    exact (parse_ok_fields h).2.2.2.2
  · intro cl flag hflag hnone
    cases hp : parse_predict_args cl with
    | error e => exact ⟨e, rfl⟩
    | ok args =>
      exfalso
      have hf := parse_ok_fields hp
      fin_cases hflag
      · rcases required_float_flag_ok_iff.mp hf.1 with ⟨v, hv, -⟩
        rw [hnone] at hv
        cases hv
      · rcases required_float_flag_ok_iff.mp hf.2.1 with ⟨v, hv, -⟩
        rw [hnone] at hv
        cases hv
      · rcases required_float_flag_ok_iff.mp hf.2.2.1 with ⟨v, hv, -⟩
        rw [hnone] at hv
        cases hv
      · rcases required_float_flag_ok_iff.mp hf.2.2.2.1 with ⟨v, hv, -⟩
        rw [hnone] at hv
        cases hv
  · intro cl flag v hflag hsome hbad
    cases hp : parse_predict_args cl with
    | error e => exact ⟨e, rfl⟩
    | ok args =>
      exfalso
      have hf := parse_ok_fields hp
      fin_cases hflag
      · rcases required_float_flag_ok_iff.mp hf.1 with ⟨w, hw, hq⟩
        rw [hsome] at hw
        cases hw
        rw [hbad] at hq
        cases hq
      · rcases required_float_flag_ok_iff.mp hf.2.1 with ⟨w, hw, hq⟩
        rw [hsome] at hw
        cases hw
        rw [hbad] at hq
        cases hq
      · rcases required_float_flag_ok_iff.mp hf.2.2.1 with ⟨w, hw, hq⟩
        rw [hsome] at hw
        cases hw
        rw [hbad] at hq
        cases hq
      · rcases required_float_flag_ok_iff.mp hf.2.2.2.1 with ⟨w, hw, hq⟩
        rw [hsome] at hw
        cases hw
        rw [hbad] at hq
        cases hq
  · intro client load_model args e hval y
    simp only [predictMain]
    split
    · intro h
      cases h
    · unfold predictWithModel
      rw [hval]
      intro h
      cases h

/-- Witness for C8: the empty command line is rejected (a measurement
flag is missing), and a non-numeric measurement value is rejected. -/
theorem c8_model_name_optional_measurements_required_witness :
    (∃ e, parse_predict_args [] = .error e) ∧
    ∃ e, parse_predict_args [("--sepal_length", "abc"), ("--sepal_width", "3"),
      ("--petal_length", "1"), ("--petal_width", "0")] = .error e :=
  ⟨c8_model_name_optional_measurements_required.2.1 [] "--sepal_length"
      (by simp) rfl,
   c8_model_name_optional_measurements_required.2.2.1 _ "--sepal_length" "abc"
      (by simp) rfl rfl⟩

end MlopsStarter
